import Mathlib

/-!
Verification of the autonomous scheduler and generation pipeline of the
Guided-Prayer bot (source: `src/components/BotAgent.tsx` and the service
layer). The development shallowly embeds, from the source:

* the persisted `lastRuns` de-duplication ledger (JobKeyStore) — a
  JavaScript object, embedded as an association list with JS object-spread
  update semantics and JS truthiness on lookups (`!lastRuns[key]` is true
  when the key is absent or its value is `0`);
* the schedule tables, minute offsets, job-key derivation and the
  `checkSchedule` tick (due test `isTime && !lastRuns[jobKey]`, mark, launch);
* the next-pending-slot scanners `findNextLongBatchJob` / `findNextShortJob`;
* the retry wrapper `callWithRetry` of the service layer;
* the generation pipeline `generateAndSaveKit` and its callers
  `runAutomatedLongVideoBatch` / `runAutomatedShortVideoJob`, with remote
  calls modelled as an oracle indexed by a global invocation counter and an
  explicit event log recording every remote call and persistence action;
* the history insertion of line 104 (`[item, ...prev].sort(desc timestamp)`).
-/

/-! ## JobKeyStore: the persisted `lastRuns` object -/

/-- The `agent_lastRuns` persisted object: a finite map from job-key strings
to epoch-millisecond timestamps, embedded as an association list (JS object:
one entry per key, insertion order kept). -/
abbrev Store := List (String × Nat)

/-- JS property read `lastRuns[key]`: the value at the first (unique) entry
with this key, `none` when absent. -/
def Store.lookup : Store → String → Option Nat
  | [], _ => none
  | (k, v) :: rest, key => if k = key then some v else Store.lookup rest key

/-- JS object spread `{...prev, [key]: v}`: an existing key keeps its
position and gets the new value; a new key is appended. This is
`markConsumed` of the spec, with the `Date.now()` argument made explicit. -/
def Store.insert : Store → String → Nat → Store
  | [], key, v => [(key, v)]
  | (k, w) :: rest, key, v =>
      if k = key then (key, v) :: rest else (k, w) :: Store.insert rest key v

/-- JS falsiness of an optional number: `!x` is true for `undefined` and for
`0`. This is exactly the guard `!lastRuns[jobKey]` of `checkSchedule`. -/
def jsFalsy : Option Nat → Bool
  | none => true
  | some n => n == 0

/-! ## Schedule tables, offsets and job keys (lines 153–158) -/

/-- The three track languages. -/
inductive Lang
  | pt
  | en
  | es
deriving DecidableEq, Repr

/-- Language code as it appears inside job keys. -/
def Lang.code : Lang → String
  | .pt => "pt"
  | .en => "en"
  | .es => "es"

/-- `schedules[lang].long` of the source. -/
def schedulesLong : Lang → List Nat
  | .pt => [6, 12, 18]
  | .en => [7, 13, 19]
  | .es => [8, 14, 20]

/-- `schedules[lang].short` of the source (the same for every language). -/
def schedulesShort : Lang → List Nat
  | _ => [9, 12, 18]

/-- `offsets` of the source: the per-language minute offset. -/
def offsets : Lang → Nat
  | .pt => 0
  | .en => 20
  | .es => 40

/-- The part of a long-batch job key after the date:
`_pt_long_batch_${hour}:${minute}`. -/
def longSuffix (hour minute : Nat) : String :=
  "_pt_long_batch_" ++ toString hour ++ ":" ++ toString minute

/-- Long-batch job key `${todayStr}_pt_long_batch_${hour}:${minute}`. -/
def longJobKey (dateStr : String) (hour minute : Nat) : String :=
  dateStr ++ longSuffix hour minute

/-- The part of a short job key after the date:
`_${lang}_short_${hour}:${minute}`. -/
def shortSuffix (lang : Lang) (hour minute : Nat) : String :=
  "_" ++ lang.code ++ "_short_" ++ toString hour ++ ":" ++ toString minute

/-- Short job key `${todayStr}_${lang}_short_${hour}:${minute}`. -/
def shortJobKey (dateStr : String) (lang : Lang) (hour minute : Nat) : String :=
  dateStr ++ shortSuffix lang hour minute

/-! ## The due test and the schedule-check tick (lines 251–296) -/

/-- The window test of `checkSchedule` (lines 267 and 286), with
`catchUpWindow = 3`:
`(currentHour === hour && currentMinute >= minute) ||
 (currentHour > hour && currentHour <= hour + catchUpWindow)`. -/
def isTime (currentHour currentMinute hour minute : Nat) : Bool :=
  (currentHour == hour && decide (minute ≤ currentMinute)) ||
    (decide (hour < currentHour) && decide (currentHour ≤ hour + 3))

/-- The full due test of a slot inside `checkSchedule`:
`isTime && !lastRuns[jobKey]`. -/
def isSlotDue (store : Store) (key : String)
    (currentHour currentMinute hour minute : Nat) : Bool :=
  isTime currentHour currentMinute hour minute && jsFalsy (Store.lookup store key)

/-- One candidate slot of a tick: its job key and its scheduled hour and
minute. -/
structure SlotSpec where
  key : String
  hour : Nat
  minute : Nat
deriving DecidableEq, Repr

/-- One invocation of `checkSchedule`: the wall-clock reading (`todayStr`,
`getHours()`, `getMinutes()`, `Date.now()`) together with the agent
configuration in force at this tick (active flags and cadences, which the
operator may change between ticks). -/
structure Tick where
  dateStr : String
  hour : Nat
  minute : Nat
  nowMs : Nat
  longActive : Bool
  shortActive : Bool
  longCadence : Nat
  shortCadence : Nat
deriving Repr

/-- The long-batch candidate slots of a tick: the first `cadence` hours of
the PT long schedule, at the PT minute offset (lines 259–262). -/
def longSlots (cadence : Nat) (dateStr : String) : List SlotSpec :=
  ((schedulesLong .pt).take cadence).map
    (fun h => ⟨longJobKey dateStr h (offsets .pt), h, offsets .pt⟩)

/-- The short candidate slots of a tick: for each language, the first
`cadence` hours of its short schedule at its minute offset (lines 279–283). -/
def shortSlots (cadence : Nat) (dateStr : String) : List SlotSpec :=
  ([Lang.pt, Lang.en, Lang.es].map
    (fun lang => ((schedulesShort lang).take cadence).map
      (fun h => ⟨shortJobKey dateStr lang h (offsets lang), h, offsets lang⟩))).flatten

/-- All candidate slots examined by one `checkSchedule` tick, in source
order: the long batch loop (when the long agent is active), then the short
loops (when the short agent is active). -/
def tickSlots (tk : Tick) : List SlotSpec :=
  (if tk.longActive then longSlots tk.longCadence tk.dateStr else []) ++
    (if tk.shortActive then shortSlots tk.shortCadence tk.dateStr else [])

/-- The body of the slot loop of `checkSchedule`: the due test reads the
tick-start store `store0` (the React closure value of `lastRuns`), while the
functional updates `setLastRuns(prev => ...)` accumulate in the first
component; a launch appends the slot's key to the launch list. -/
def tickStep (store0 : Store) (tk : Tick) (acc : Store × List String)
    (s : SlotSpec) : Store × List String :=
  if isSlotDue store0 s.key tk.hour tk.minute s.hour s.minute then
    (Store.insert acc.1 s.key tk.nowMs, acc.2 ++ [s.key])
  else acc

/-- One `checkSchedule` tick: fold the slot loop over the tick's candidate
slots, starting from the persisted store; returns the updated store and the
ordered list of launched slot keys. -/
def checkSchedule (tk : Tick) (store : Store) : Store × List String :=
  (tickSlots tk).foldl (tickStep store tk) (store, [])

/-- A sequence of schedule-check ticks: each tick starts from the store the
previous tick left behind (the persisted `agent_lastRuns`, surviving process
restarts); launches accumulate in order. -/
def runTicks (ticks : List Tick) (store : Store) : Store × List String :=
  ticks.foldl (fun acc tk =>
    ((checkSchedule tk acc.1).1, acc.2 ++ (checkSchedule tk acc.1).2)) (store, [])

/-! ## The next-pending-slot scanners (lines 160–221) -/

/-- The wall-clock millisecond timestamp of the slot at hour `h`, minute `m`
of day `d` (0 = today, 1 = tomorrow): `jobTime.setHours(hour, minute, 0, 0)`
on `checkDate = now + d days`, with `dayStart` the millisecond timestamp of
local midnight today. -/
def slotTimeMs (dayStart d h m : Nat) : Nat :=
  dayStart + d * 86400000 + (h * 60 + m) * 60000

/-- The comparison `jobTime.getTime() < closestJob.time` where the initial
`closestJob.time` is `Infinity` (embedded as `none`). -/
def beatsClosest (closest : Option (Nat × String)) (t : Nat) : Bool :=
  match closest with
  | none => true
  | some c => decide (t < c.1)

/-- The body of the scanning loops of `findNextLongBatchJob` and
`findNextShortJob`: keep a candidate slot when its time is strictly in the
future, beats the best so far, and its key reads falsy in `lastRuns`. -/
def scanStep (store : Store) (now : Nat) (closest : Option (Nat × String))
    (cand : Nat × String) : Option (Nat × String) :=
  if decide (now < cand.1) && beatsClosest closest cand.1
      && jsFalsy (Store.lookup store cand.2) then
    some cand
  else closest

/-- Fold the scanning loop over a candidate list. -/
def scanSlots (store : Store) (now : Nat) (closest : Option (Nat × String))
    (cands : List (Nat × String)) : Option (Nat × String) :=
  cands.foldl (scanStep store now) closest

/-- The long-batch candidates of day `d`: the first `cadence` hours of the
PT long schedule, with their timestamps and job keys. -/
def longDayCands (cadence : Nat) (dayStart : Nat) (dates : Nat → String)
    (d : Nat) : List (Nat × String) :=
  ((schedulesLong .pt).take cadence).map
    (fun h => (slotTimeMs dayStart d h (offsets .pt),
               longJobKey (dates d) h (offsets .pt)))

/-- `findNextLongBatchJob` (lines 160–189): scan today; the loop breaks out
of the day loop when today yielded a candidate (`closestJob.time !==
Infinity`), otherwise scan tomorrow. Returns the winning slot's time and
key (the source keeps the time and a display string derived from the
slot). -/
def findNextLongBatchJob (cadence : Nat) (store : Store) (now dayStart : Nat)
    (dates : Nat → String) : Option (Nat × String) :=
  match scanSlots store now none (longDayCands cadence dayStart dates 0) with
  | some j => some j
  | none => scanSlots store now none (longDayCands cadence dayStart dates 1)

/-- The short candidates in source scanning order: language-major
(`pt, en, es`), then day (today, tomorrow), then the first `cadence` hours
of the short schedule. -/
def shortCands (cadence : Nat) (dayStart : Nat) (dates : Nat → String) :
    List (Nat × String) :=
  ([Lang.pt, Lang.en, Lang.es].map (fun lang =>
    ([0, 1].map (fun d =>
      ((schedulesShort lang).take cadence).map
        (fun h => (slotTimeMs dayStart d h (offsets lang),
                   shortJobKey (dates d) lang h (offsets lang))))).flatten)).flatten

/-- `findNextShortJob` (lines 191–221): one scan over the whole triple loop
(no early break in the source). -/
def findNextShortJob (cadence : Nat) (store : Store) (now dayStart : Nat)
    (dates : Nat → String) : Option (Nat × String) :=
  scanSlots store now none (shortCands cadence dayStart dates)

/-- Eligibility of a candidate as read by the scanners: strictly future
timestamp and falsy `lastRuns` entry. -/
def pending (store : Store) (now : Nat) (cand : Nat × String) : Prop :=
  now < cand.1 ∧ jsFalsy (Store.lookup store cand.2) = true

/-! ## The retry wrapper `callWithRetry` (service layer, lines 438–449) -/

/-- The shape of a rejected remote call as inspected by `callWithRetry`:
optional `status` (a number or a string) and optional numeric `code`. -/
structure ApiError where
  status : Option (Sum Nat String)
  code : Option Nat
deriving DecidableEq, Repr

/-- A thrown `new Error(...)` (no `status`, no `code` field). -/
def jsError : ApiError :=
  { status := none, code := none }

/-- The rate-limit signature test of `callWithRetry`:
`error?.status === 429 || error?.status === 'RESOURCE_EXHAUSTED' ||
 error?.code === 429`. -/
def isRateLimitError (e : ApiError) : Bool :=
  decide (e.status = some (Sum.inl 429)) ||
    decide (e.status = some (Sum.inr "RESOURCE_EXHAUSTED")) ||
    decide (e.code = some 429)

/-- The observable outcome of one `callWithRetry` execution: the settled
result, the number of times the wrapped operation was invoked, and the total
simulated wait spent between invocations. -/
structure RetryOutcome (α : Type) where
  result : Except ApiError α
  calls : Nat
  waited : Nat
deriving Repr

/-- `callWithRetry(fn, retries, delay)`: invoke the operation (attempt
number `attempt` distinguishes successive invocations of the fallible
operation); on rejection, when `retries > 0` and the error carries the
rate-limit signature, wait `delay` and recurse with `retries - 1` and
`delay * 2`; otherwise rethrow immediately. -/
def callWithRetry (fn : Nat → Except ApiError α) (attempt retries delay : Nat) :
    RetryOutcome α :=
  match fn attempt with
  | .ok v => ⟨.ok v, 1, 0⟩
  | .error e =>
    match retries with
    | 0 => ⟨.error e, 1, 0⟩
    | r + 1 =>
      if isRateLimitError e then
        let rest := callWithRetry fn (attempt + 1) r (delay * 2)
        ⟨rest.result, rest.calls + 1, rest.waited + delay⟩
      else ⟨.error e, 1, 0⟩

/-! ## The generation pipeline (lines 40–149) -/

/-- Job type of a pipeline run. -/
inductive JobType
  | long
  | short
deriving DecidableEq, Repr

/-- Job type as it appears inside identifiers. -/
def JobType.str : JobType → String
  | .long => "long"
  | .short => "short"

/-- A binary payload. `wav` keeps the provenance of
`createWavFile(decode(audioB64), 1, 24000, 16)`; `png` keeps the base64
source of the blob produced from the image data URL. -/
inductive Blob
  | wav (b64 : String) (channels sampleRate bitDepth : Nat)
  | png (b64 : String)
deriving DecidableEq, Repr

/-- The structured post record (title and description are the fields the
pipeline reads; hashtags, chapters and tags ride along unread). -/
structure Post where
  title : String
  description : String
deriving DecidableEq, Repr

/-- A trending-topic research result. -/
structure Topic where
  theme : String
  subthemes : List String
deriving DecidableEq, Repr

/-- The artifact record inserted into the history collection (lines
90–103). -/
structure HistoryItem where
  id : String
  timestamp : Nat
  type : JobType
  language : String
  prompt : String
  subthemes : List String
  prayer : String
  socialPost : Option Post
  longPost : Option Post
  audioBlobKey : String
  imageBlobKey : String
  isDownloaded : Bool
deriving DecidableEq, Repr

/-- Every observable action of a pipeline run: one constructor per remote
call (carrying the global invocation index and the call's arguments), plus
the two persistence actions (`idb.set` and the history insertion). -/
inductive Event
  | callTrendingTopic (idx : Nat) (lang : String) (jt : JobType)
  | callGuidedPrayer (idx : Nat) (theme lang : String)
  | callShortPrayer (idx : Nat) (theme lang : String)
  | callYouTubeLongPost (idx : Nat) (theme : String) (subthemes : List String) (lang : String)
  | callSocialMediaPost (idx : Nat) (prayer lang : String)
  | callSpeech (idx : Nat) (text : String) (multiSpeaker : Bool)
  | callThumbnailPrompt (idx : Nat) (title description prayer lang : String)
  | callMediaPrompt (idx : Nat) (prayer : String)
  | callImageGen (idx : Nat) (prompt aspect : String)
  | idbSet (key : String) (blob : Blob)
  | historyInsert (item : HistoryItem)
deriving DecidableEq, Repr

/-- The threaded run state: the next global invocation index and the event
log so far. -/
structure PState where
  nextIdx : Nat
  log : List Event
deriving Repr

/-- The remote collaborators as an oracle: each call is a function of the
global invocation index (distinct invocations of the same endpoint with the
same arguments may answer differently) and its arguments, settling to a
value or a rejection. -/
structure Services where
  getTrendingTopic : Nat → String → JobType → Except ApiError Topic
  generateGuidedPrayer : Nat → String → String → Except ApiError String
  generateShortPrayer : Nat → String → String → Except ApiError String
  generateYouTubeLongPost : Nat → String → List String → String → Except ApiError Post
  generateSocialMediaPost : Nat → String → String → Except ApiError Post
  generateSpeech : Nat → String → Bool → Except ApiError String
  createThumbnailPromptFromPost : Nat → String → String → String → String → Except ApiError String
  createMediaPromptFromPrayer : Nat → String → Except ApiError String
  generateImageFromPrayer : Nat → String → String → Except ApiError String

/-- Perform one remote call: log its event at the current invocation index,
advance the index, and surface the oracle's answer. -/
def callSvc (s : PState) (ev : Nat → Event) (res : Nat → Except ApiError α) :
    Except ApiError α × PState :=
  (res s.nextIdx, ⟨s.nextIdx + 1, s.log ++ [ev s.nextIdx]⟩)

/-- Step 3 of `generateAndSaveKit` (lines 81–105): derive the identifier
from (`Date.now()`, language, job type), persist the two payloads under the
derived history keys, and return the assembled artifact record. -/
def finishKit (jobLang : String) (jobType : JobType) (theme : String)
    (subthemes : List String) (prayer : String) (post : Post)
    (audioBlob imageBlob : Blob) (nowMs : Nat) (s : PState) :
    Except ApiError HistoryItem × PState :=
  let id := toString nowMs ++ "-" ++ jobLang ++ "-" ++ jobType.str
  let audioBlobKey := "history_audio_" ++ id
  let imageBlobKey := "history_image_" ++ id
  let item : HistoryItem :=
    { id := id
      timestamp := nowMs
      type := jobType
      language := jobLang
      prompt := theme
      subthemes := subthemes
      prayer := prayer
      socialPost := if jobType = JobType.short then some post else none
      longPost := if jobType = JobType.long then some post else none
      audioBlobKey := audioBlobKey
      imageBlobKey := imageBlobKey
      isDownloaded := false }
  (Except.ok item,
   ⟨s.nextIdx,
    s.log ++ [Event.idbSet audioBlobKey audioBlob,
              Event.idbSet imageBlobKey imageBlob,
              Event.historyInsert item]⟩)

/-- `generateAndSaveKit` (lines 40–105), sequential as in the source: text
assets (guided script + long post for `long`, short prayer + social post for
`short`; the emptiness check `if (!prayer || !post) throw` fires on an empty
prayer string — the post object is always truthy), then speech (multi-speaker
exactly for `long`) with the empty-audio check, then the visual asset —
reused verbatim when `sharedImageBlob` is supplied, otherwise thumbnail
prompt plus one image generation at `9:16` for `short` and `16:9` for `long`
with the empty-image check — and finally persistence via `finishKit`. Each
rejected awaited call aborts the run with that error. -/
def generateAndSaveKit (svc : Services) (jobLang : String) (jobType : JobType)
    (theme : String) (subthemes : List String) (sharedImageBlob : Option Blob)
    (nowMs : Nat) (s0 : PState) : Except ApiError HistoryItem × PState :=
  let prayerStep :=
    if jobType = JobType.long then
      callSvc s0 (fun i => Event.callGuidedPrayer i theme jobLang)
        (fun i => svc.generateGuidedPrayer i theme jobLang)
    else
      callSvc s0 (fun i => Event.callShortPrayer i theme jobLang)
        (fun i => svc.generateShortPrayer i theme jobLang)
  match prayerStep.1 with
  | Except.error e => (Except.error e, prayerStep.2)
  | Except.ok prayer =>
    let postStep :=
      if jobType = JobType.long then
        callSvc prayerStep.2 (fun i => Event.callYouTubeLongPost i theme subthemes jobLang)
          (fun i => svc.generateYouTubeLongPost i theme subthemes jobLang)
      else
        callSvc prayerStep.2 (fun i => Event.callSocialMediaPost i prayer jobLang)
          (fun i => svc.generateSocialMediaPost i prayer jobLang)
    match postStep.1 with
    | Except.error e => (Except.error e, postStep.2)
    | Except.ok post =>
      if prayer = "" then (Except.error jsError, postStep.2)
      else
        let multiSpeaker := if jobType = JobType.long then true else false
        let speechStep := callSvc postStep.2
          (fun i => Event.callSpeech i prayer multiSpeaker)
          (fun i => svc.generateSpeech i prayer multiSpeaker)
        match speechStep.1 with
        | Except.error e => (Except.error e, speechStep.2)
        | Except.ok audioB64 =>
          if audioB64 = "" then (Except.error jsError, speechStep.2)
          else
            let audioBlob := Blob.wav audioB64 1 24000 16
            match sharedImageBlob with
            | some b =>
              finishKit jobLang jobType theme subthemes prayer post audioBlob b nowMs
                speechStep.2
            | none =>
              let thumbStep := callSvc speechStep.2
                (fun i => Event.callThumbnailPrompt i post.title post.description prayer jobLang)
                (fun i => svc.createThumbnailPromptFromPost i post.title post.description prayer jobLang)
              match thumbStep.1 with
              | Except.error e => (Except.error e, thumbStep.2)
              | Except.ok visualPrompt =>
                let aspect := if jobType = JobType.short then "9:16" else "16:9"
                let imageStep := callSvc thumbStep.2
                  (fun i => Event.callImageGen i visualPrompt aspect)
                  (fun i => svc.generateImageFromPrayer i visualPrompt aspect)
                match imageStep.1 with
                | Except.error e => (Except.error e, imageStep.2)
                | Except.ok imageB64 =>
                  if imageB64 = "" then (Except.error jsError, imageStep.2)
                  else
                    finishKit jobLang jobType theme subthemes prayer post audioBlob
                      (Blob.png imageB64) nowMs imageStep.2

/-- The `try` body of `runAutomatedLongVideoBatch` (lines 110–130): research
the PT topic, generate a PT guided prayer only to derive the shared visual
prompt, generate the shared `16:9` image (with the empty-image check), then
run the three language kits sequentially with the shared image. -/
def longBatchBody (svc : Services) (nowMs : Nat) (s0 : PState) :
    Except ApiError Unit × PState :=
  let topicStep := callSvc s0 (fun i => Event.callTrendingTopic i "pt" JobType.long)
    (fun i => svc.getTrendingTopic i "pt" JobType.long)
  match topicStep.1 with
  | Except.error e => (Except.error e, topicStep.2)
  | Except.ok topic =>
    let visualTextStep := callSvc topicStep.2
      (fun i => Event.callGuidedPrayer i topic.theme "pt")
      (fun i => svc.generateGuidedPrayer i topic.theme "pt")
    match visualTextStep.1 with
    | Except.error e => (Except.error e, visualTextStep.2)
    | Except.ok ptPrayerForVisual =>
      let mediaPromptStep := callSvc visualTextStep.2
        (fun i => Event.callMediaPrompt i ptPrayerForVisual)
        (fun i => svc.createMediaPromptFromPrayer i ptPrayerForVisual)
      match mediaPromptStep.1 with
      | Except.error e => (Except.error e, mediaPromptStep.2)
      | Except.ok visualPrompt =>
        let imageStep := callSvc mediaPromptStep.2
          (fun i => Event.callImageGen i visualPrompt "16:9")
          (fun i => svc.generateImageFromPrayer i visualPrompt "16:9")
        match imageStep.1 with
        | Except.error e => (Except.error e, imageStep.2)
        | Except.ok imageB64 =>
          if imageB64 = "" then (Except.error jsError, imageStep.2)
          else
            let imageBlob := Blob.png imageB64
            let kitPt := generateAndSaveKit svc "pt" JobType.long topic.theme
              topic.subthemes (some imageBlob) nowMs imageStep.2
            match kitPt.1 with
            | Except.error e => (Except.error e, kitPt.2)
            | Except.ok _ =>
              let kitEn := generateAndSaveKit svc "en" JobType.long topic.theme
                topic.subthemes (some imageBlob) nowMs kitPt.2
              match kitEn.1 with
              | Except.error e => (Except.error e, kitEn.2)
              | Except.ok _ =>
                let kitEs := generateAndSaveKit svc "es" JobType.long topic.theme
                  topic.subthemes (some imageBlob) nowMs kitEn.2
                match kitEs.1 with
                | Except.error e => (Except.error e, kitEs.2)
                | Except.ok _ => (Except.ok (), kitEs.2)

/-- `runAutomatedLongVideoBatch` (lines 107–136): the body runs under
`try/catch` — any failure is logged and swallowed, so the launching job
itself always settles successfully. -/
def runAutomatedLongVideoBatch (svc : Services) (nowMs : Nat) (s0 : PState) :
    Except ApiError Unit × PState :=
  (Except.ok (), (longBatchBody svc nowMs s0).2)

/-- The `try` body of `runAutomatedShortVideoJob` (lines 141–143). -/
def shortJobBody (svc : Services) (jobLang : String) (nowMs : Nat) (s0 : PState) :
    Except ApiError Unit × PState :=
  let topicStep := callSvc s0 (fun i => Event.callTrendingTopic i jobLang JobType.short)
    (fun i => svc.getTrendingTopic i jobLang JobType.short)
  match topicStep.1 with
  | Except.error e => (Except.error e, topicStep.2)
  | Except.ok topic =>
    let kitStep := generateAndSaveKit svc jobLang JobType.short topic.theme
      topic.subthemes none nowMs topicStep.2
    match kitStep.1 with
    | Except.error e => (Except.error e, kitStep.2)
    | Except.ok _ => (Except.ok (), kitStep.2)

/-- `runAutomatedShortVideoJob` (lines 138–149): body under `try/catch`,
failures logged and swallowed. -/
def runAutomatedShortVideoJob (svc : Services) (jobLang : String) (nowMs : Nat)
    (s0 : PState) : Except ApiError Unit × PState :=
  (Except.ok (), (shortJobBody svc jobLang nowMs s0).2)

/-- Number of image-generation calls recorded in a log. -/
def countImageGen (log : List Event) : Nat :=
  (log.filter (fun e =>
    match e with
    | Event.callImageGen _ _ _ => true
    | _ => false)).length

/-- Number of PT guided-prayer calls recorded in a log. -/
def countPtGuided (log : List Event) : Nat :=
  (log.filter (fun e =>
    match e with
    | Event.callGuidedPrayer _ _ lang => lang == "pt"
    | _ => false)).length

/-! ## History insertion (line 104) -/

/-- The history update of line 104:
`setHistory(prev => [newHistoryItem, ...prev].sort((a, b) => b.timestamp - a.timestamp))`
— prepend, then sort by descending timestamp (a stable comparator sort,
embedded as an insertion sort under the same ordering). -/
def persistHistory (item : HistoryItem) (prev : List HistoryItem) :
    List HistoryItem :=
  List.insertionSort (fun a b : HistoryItem => b.timestamp ≤ a.timestamp)
    (item :: prev)

/-- A collaborator oracle whose every remote call rejects with a plain
error: exercises the failure paths. -/
def failingServices : Services :=
  { getTrendingTopic := fun _ _ _ => Except.error jsError
    generateGuidedPrayer := fun _ _ _ => Except.error jsError
    generateShortPrayer := fun _ _ _ => Except.error jsError
    generateYouTubeLongPost := fun _ _ _ _ => Except.error jsError
    generateSocialMediaPost := fun _ _ _ => Except.error jsError
    generateSpeech := fun _ _ _ => Except.error jsError
    createThumbnailPromptFromPost := fun _ _ _ _ _ => Except.error jsError
    createMediaPromptFromPrayer := fun _ _ => Except.error jsError
    generateImageFromPrayer := fun _ _ _ => Except.error jsError }

/-- A deterministic oracle that answers every guided-prayer request with the
same text "P" regardless of the invocation: the two independent PT calls of
a long batch then return identical texts. -/
def svcSame : Services :=
  { getTrendingTopic := fun _ _ _ => Except.ok ⟨"hope", []⟩
    generateGuidedPrayer := fun _ _ _ => Except.ok "P"
    generateShortPrayer := fun _ _ _ => Except.ok "S"
    generateYouTubeLongPost := fun _ _ _ _ => Except.ok ⟨"T", "D"⟩
    generateSocialMediaPost := fun _ _ _ => Except.ok ⟨"T", "D"⟩
    generateSpeech := fun _ _ _ => Except.ok "A"
    createThumbnailPromptFromPost := fun _ _ _ _ _ => Except.ok "TP"
    createMediaPromptFromPrayer := fun _ _ => Except.ok "MP"
    generateImageFromPrayer := fun _ _ _ => Except.ok "IMG" }

/-- An oracle whose guided-prayer responses differ between invocations (the
text carries the invocation index), as independent generative calls
generally do. -/
def svcDistinct : Services :=
  { svcSame with generateGuidedPrayer := fun j _ _ => Except.ok ("P" ++ toString j) }

/-- The twelve job-key suffixes a tick can ever examine: the three long
hours and, per language, the three short hours at that language's minute
offset. Every candidate key of a tick is the tick's date followed by one of
these. -/
def allTickSuffixes : List String :=
  [longSuffix 6 0, longSuffix 12 0, longSuffix 18 0,
   shortSuffix .pt 9 0, shortSuffix .pt 12 0, shortSuffix .pt 18 0,
   shortSuffix .en 9 20, shortSuffix .en 12 20, shortSuffix .en 18 20,
   shortSuffix .es 9 40, shortSuffix .es 12 40, shortSuffix .es 18 40]

/-! ## Store lemmas -/

theorem store_lookup_insert (s : Store) (k : String) (v : Nat) (key : String) :
    Store.lookup (Store.insert s k v) key =
      if k = key then some v else Store.lookup s key := by
  induction s with
  | nil =>
    by_cases h : k = key <;> simp [Store.insert, Store.lookup, h]
  | cons hd tl ih =>
    obtain ⟨hk, hv⟩ := hd
    by_cases h1 : hk = k
    · by_cases h2 : k = key
      · simp [Store.insert, h1, Store.lookup, h2]
      · have h3 : ¬hk = key := by rw [h1]; exact h2
        simp [Store.insert, h1, Store.lookup, h2, h3]
    · by_cases h2 : hk = key
      · have h3 : ¬k = key := fun hc => h1 (h2.trans hc.symm)
        have h4 : ¬key = k := fun hc => h1 (h2.trans hc)
        simp [Store.insert, h1, Store.lookup, h2, h3, h4]
      · simp [Store.insert, h1, Store.lookup, h2, ih]

theorem store_insert_insert (s : Store) (k : String) (t1 t2 : Nat) :
    Store.insert (Store.insert s k t1) k t2 = Store.insert s k t2 := by
  induction s with
  | nil => simp [Store.insert]
  | cons hd tl ih =>
    obtain ⟨hk, hv⟩ := hd
    by_cases h1 : hk = k
    · simp [Store.insert, h1]
    · simp [Store.insert, h1, ih]

/-! ## C3: the retry policy -/

/-- C3: under policy `retries = 3`, `delay = 2000`, multiplier 2, an
operation rejecting with a rate-limit-class error exactly twice and then
succeeding is invoked exactly 3 times, waits `2000 + 4000` ms in total
between invocations, and its result is returned; an operation rejecting with
a non-rate-limit error is invoked exactly once and that error propagates
with no wait. -/
theorem callWithRetry_policy {α : Type} (fn gn : Nat → Except ApiError α)
    (e1 e2 e : ApiError) (v : α)
    (h0 : fn 0 = Except.error e1) (h1 : fn 1 = Except.error e2)
    (h2 : fn 2 = Except.ok v)
    (hr1 : isRateLimitError e1 = true) (hr2 : isRateLimitError e2 = true)
    (hg : gn 0 = Except.error e) (hnr : isRateLimitError e = false) :
    callWithRetry fn 0 3 2000 = ⟨Except.ok v, 3, 6000⟩ ∧
      callWithRetry gn 0 3 2000 = ⟨Except.error e, 1, 0⟩ := by
  constructor
  · show callWithRetry fn 0 3 2000 = ⟨Except.ok v, 3, 6000⟩
    simp [callWithRetry, h0, h1, h2, hr1, hr2]
  · simp [callWithRetry, hg, hnr]

/-- Witness for C3 at a concrete rate-limited operation and a concrete
fatally failing operation. -/
theorem callWithRetry_policy_witness :
    callWithRetry
        (fun n => if n < 2 then Except.error { status := some (Sum.inl 429), code := none }
                  else Except.ok 7) 0 3 2000 = ⟨Except.ok 7, 3, 6000⟩ ∧
      callWithRetry (fun _ => (Except.error jsError : Except ApiError Nat)) 0 3 2000 =
        ⟨Except.error jsError, 1, 0⟩ :=
  callWithRetry_policy
    (fun n => if n < 2 then Except.error { status := some (Sum.inl 429), code := none }
              else Except.ok 7)
    (fun _ => Except.error jsError)
    { status := some (Sum.inl 429), code := none }
    { status := some (Sum.inl 429), code := none }
    jsError 7 rfl rfl rfl (by decide) (by decide) rfl (by decide)

/-! ## C2: the catch-up window of an hour-6 slot -/

/-- C2 counterexample: at 9:00 on the slot's date, with the slot's key
absent from the store, the hour-6 slot (PT minute offset 0) is still due —
the source test `currentHour <= hour + 3` keeps the whole of hour 9 inside
the window, while the claim says the slot is never due at 9:00 or later. -/
theorem catchUp_hour6_cex :
    isSlotDue [] (longJobKey "2025-01-01" 6 0) 9 0 6 0 = true := by decide

/-- C2 (amended): for a slot scheduled at hour 6, minute `M`, with its key
absent from the store, the due test holds exactly at the check moments from
(6, `M`) through 9:59 of that date — within hour 6 from minute `M` on, and
throughout hours 7, 8 and 9 — and is false at 10:00 or later. -/
theorem catchUp_hour6_window (store : Store) (key : String) (M curH curM : Nat)
    (hAbs : Store.lookup store key = none) :
    isSlotDue store key curH curM 6 M = true ↔
      ((curH = 6 ∧ M ≤ curM) ∨ (7 ≤ curH ∧ curH ≤ 9)) := by
  simp only [isSlotDue, isTime, hAbs, jsFalsy, Bool.and_true, Bool.or_eq_true,
    Bool.and_eq_true, beq_iff_eq, decide_eq_true_eq]
  omega

/-- Witness for C2 (amended) at a concrete store, key and check moment. -/
theorem catchUp_hour6_window_witness :
    Store.lookup [] "2025-01-01_pt_long_batch_6:0" = none ∧
      (isSlotDue [] "2025-01-01_pt_long_batch_6:0" 9 30 6 0 = true ↔
        ((9 = 6 ∧ 0 ≤ 30) ∨ (7 ≤ 9 ∧ 9 ≤ 9))) :=
  ⟨rfl, catchUp_hour6_window [] "2025-01-01_pt_long_batch_6:0" 0 9 30 rfl⟩

/-! ## C4: a consumed slot is never due -/

/-- C4: a slot whose key is present in the store (with a genuine, nonzero
completion timestamp — the only values `markConsumed` ever writes at a real
clock reading) is never due, regardless of the current hour and minute. -/
theorem consumedSlot_never_due (store : Store) (key : String)
    (curH curM hour minute t : Nat)
    (hPres : Store.lookup store key = some t) (ht : t ≠ 0) :
    isSlotDue store key curH curM hour minute = false := by
  have hz : (t == 0) = false := by simp [ht]
  simp [isSlotDue, jsFalsy, hPres, hz]

/-- Witness for C4 at a concrete store and check moment inside the slot's
window. -/
theorem consumedSlot_never_due_witness :
    Store.lookup [("2025-01-01_pt_long_batch_6:0", 5)] "2025-01-01_pt_long_batch_6:0" = some 5 ∧
      isSlotDue [("2025-01-01_pt_long_batch_6:0", 5)] "2025-01-01_pt_long_batch_6:0" 6 0 6 0 = false :=
  ⟨by decide,
   consumedSlot_never_due [("2025-01-01_pt_long_batch_6:0", 5)]
     "2025-01-01_pt_long_batch_6:0" 6 0 6 0 5 (by decide) (by decide)⟩

/-! ## C5: a second markConsumed for the same key -/

/-- C5 counterexample: `markConsumed` is the functional update
`{...prev, [key]: Date.now()}`; a second call for the same key at a later
clock reading (here 2 after 1) overwrites the stored timestamp, so the
second call does change the store state. -/
theorem markConsumed_twice_cex :
    Store.insert (Store.insert [] "2025-01-01_pt_long_batch_6:0" 1)
        "2025-01-01_pt_long_batch_6:0" 2 ≠
      Store.insert [] "2025-01-01_pt_long_batch_6:0" 1 := by decide

/-- C5 (amended): a second `markConsumed` for the same key is a no-op when
it carries the same timestamp; in general it only overwrites that key's
timestamp — the double update collapses to the single later update, so the
key set and every other entry are unchanged. -/
theorem markConsumed_twice (s : Store) (k : String) (t1 t2 : Nat) :
    Store.insert (Store.insert s k t1) k t1 = Store.insert s k t1 ∧
      Store.insert (Store.insert s k t1) k t2 = Store.insert s k t2 :=
  ⟨store_insert_insert s k t1 t1, store_insert_insert s k t1 t2⟩

/-! ## C9: the history stays sorted by descending timestamp -/

instance : IsTotal HistoryItem (fun a b => b.timestamp ≤ a.timestamp) :=
  ⟨fun a b => le_total b.timestamp a.timestamp⟩

instance : IsTrans HistoryItem (fun a b => b.timestamp ≤ a.timestamp) :=
  ⟨fun _ _ _ hab hbc => le_trans hbc hab⟩

/-- C9: inserting a new artifact record into any prior history state via the
line-104 update (prepend, then sort by descending timestamp) yields a
collection in non-increasing timestamp order. -/
theorem persistHistory_sorted (item : HistoryItem) (prev : List HistoryItem) :
    List.Sorted (fun a b => b.timestamp ≤ a.timestamp)
      (persistHistory item prev) :=
  List.sorted_insertionSort _ _

/-! ## C1: each slot occurrence launches at most once -/

theorem string_append_left_cancel {a b c : String} (h : a ++ b = a ++ c) :
    b = c := by
  have hd : (a ++ b).data = (a ++ c).data := by rw [h]
  simp only [String.data_append] at hd
  exact String.ext (List.append_cancel_left hd)

theorem long_keys_sub (cad : Nat) (d : String) :
    ((longSlots cad d).map SlotSpec.key).Sublist
      (List.map (fun s => d ++ s)
        [longSuffix 6 0, longSuffix 12 0, longSuffix 18 0]) := by
  have h1 : (longSlots cad d).map SlotSpec.key
      = ((schedulesLong .pt).take cad).map (fun h => d ++ longSuffix h 0) := by
    simp [longSlots, List.map_map, longJobKey, offsets, Function.comp_def]
  rw [h1]
  exact (List.take_sublist cad (schedulesLong .pt)).map _

theorem short_keys_sub (cad : Nat) (d : String) :
    ((shortSlots cad d).map SlotSpec.key).Sublist
      (List.map (fun s => d ++ s)
        [shortSuffix .pt 9 0, shortSuffix .pt 12 0, shortSuffix .pt 18 0,
         shortSuffix .en 9 20, shortSuffix .en 12 20, shortSuffix .en 18 20,
         shortSuffix .es 9 40, shortSuffix .es 12 40, shortSuffix .es 18 40]) := by
  have h1 : (shortSlots cad d).map SlotSpec.key
      = (((schedulesShort .pt).take cad).map (fun h => d ++ shortSuffix .pt h 0)
          ++ ((schedulesShort .en).take cad).map (fun h => d ++ shortSuffix .en h 20))
          ++ ((schedulesShort .es).take cad).map (fun h => d ++ shortSuffix .es h 40) := by
    simp [shortSlots, List.map_map, shortJobKey, offsets, Function.comp_def,
      List.append_assoc]
  rw [h1]
  exact (((List.take_sublist cad (schedulesShort .pt)).map _).append
    ((List.take_sublist cad (schedulesShort .en)).map _)).append
    ((List.take_sublist cad (schedulesShort .es)).map _)

theorem tickKeys_sublist (tk : Tick) :
    ((tickSlots tk).map SlotSpec.key).Sublist
      (List.map (fun s => tk.dateStr ++ s) allTickSuffixes) := by
  have hmap : (tickSlots tk).map SlotSpec.key =
      ((if tk.longActive then longSlots tk.longCadence tk.dateStr else []).map SlotSpec.key)
        ++ ((if tk.shortActive then shortSlots tk.shortCadence tk.dateStr else []).map SlotSpec.key) := by
    simp [tickSlots]
  have hL : ((if tk.longActive then longSlots tk.longCadence tk.dateStr else []).map SlotSpec.key).Sublist
      (List.map (fun s => tk.dateStr ++ s)
        [longSuffix 6 0, longSuffix 12 0, longSuffix 18 0]) := by
    cases h : tk.longActive
    · simp
    · simpa using long_keys_sub tk.longCadence tk.dateStr
  have hS : ((if tk.shortActive then shortSlots tk.shortCadence tk.dateStr else []).map SlotSpec.key).Sublist
      (List.map (fun s => tk.dateStr ++ s)
        [shortSuffix .pt 9 0, shortSuffix .pt 12 0, shortSuffix .pt 18 0,
         shortSuffix .en 9 20, shortSuffix .en 12 20, shortSuffix .en 18 20,
         shortSuffix .es 9 40, shortSuffix .es 12 40, shortSuffix .es 18 40]) := by
    cases h : tk.shortActive
    · simp
    · simpa using short_keys_sub tk.shortCadence tk.dateStr
  rw [hmap]
  exact hL.append hS

theorem tickKeys_nodup (tk : Tick) :
    ((tickSlots tk).map SlotSpec.key).Nodup := by
  refine List.Nodup.sublist (tickKeys_sublist tk) (List.Nodup.map ?_ ?_)
  · intro a b hab
    exact string_append_left_cancel hab
  · decide

theorem foldl_tickStep_snd (store0 : Store) (tk : Tick) (slots : List SlotSpec)
    (acc : Store × List String) :
    (slots.foldl (tickStep store0 tk) acc).2 =
      acc.2 ++ (slots.filter
        (fun s => isSlotDue store0 s.key tk.hour tk.minute s.hour s.minute)).map SlotSpec.key := by
  induction slots generalizing acc with
  | nil => simp
  | cons s rest ih =>
    by_cases h : isSlotDue store0 s.key tk.hour tk.minute s.hour s.minute = true
    · simp only [List.foldl_cons]
      rw [ih]
      simp [tickStep, h, List.filter_cons, List.append_assoc]
    · simp only [List.foldl_cons]
      rw [ih]
      simp [tickStep, h, List.filter_cons]

theorem foldl_tickStep_fst (store0 : Store) (tk : Tick) (slots : List SlotSpec)
    (acc : Store × List String) (k : String) :
    Store.lookup (slots.foldl (tickStep store0 tk) acc).1 k =
      if k ∈ (slots.filter
          (fun s => isSlotDue store0 s.key tk.hour tk.minute s.hour s.minute)).map SlotSpec.key
      then some tk.nowMs else Store.lookup acc.1 k := by
  induction slots generalizing acc with
  | nil => simp
  | cons s rest ih =>
    simp only [List.foldl_cons]
    rw [ih]
    by_cases h : isSlotDue store0 s.key tk.hour tk.minute s.hour s.minute = true
    · have hfil : (s :: rest).filter
          (fun s => isSlotDue store0 s.key tk.hour tk.minute s.hour s.minute)
          = s :: rest.filter
            (fun s => isSlotDue store0 s.key tk.hour tk.minute s.hour s.minute) := by
        simp [List.filter_cons, h]
      rw [hfil, List.map_cons]
      have hstep : (tickStep store0 tk acc s).1 = Store.insert acc.1 s.key tk.nowMs := by
        simp [tickStep, h]
      rw [hstep, store_lookup_insert]
      by_cases hm : k ∈ (rest.filter
          (fun s => isSlotDue store0 s.key tk.hour tk.minute s.hour s.minute)).map SlotSpec.key
      · rw [if_pos hm, if_pos (List.mem_cons_of_mem _ hm)]
      · rw [if_neg hm]
        by_cases hk : s.key = k
        · rw [if_pos hk, if_pos (List.mem_cons.mpr (Or.inl hk.symm))]
        · rw [if_neg hk, if_neg (fun hc => by
            rcases List.mem_cons.mp hc with h1 | h2
            · exact hk h1.symm
            · exact hm h2)]
    · have hfil : (s :: rest).filter
          (fun s => isSlotDue store0 s.key tk.hour tk.minute s.hour s.minute)
          = rest.filter
            (fun s => isSlotDue store0 s.key tk.hour tk.minute s.hour s.minute) := by
        simp [List.filter_cons, h]
      rw [hfil]
      have hstep : tickStep store0 tk acc s = acc := by
        simp [tickStep, h]
      rw [hstep]

theorem checkSchedule_snd (tk : Tick) (st : Store) :
    (checkSchedule tk st).2 = ((tickSlots tk).filter
      (fun s => isSlotDue st s.key tk.hour tk.minute s.hour s.minute)).map SlotSpec.key := by
  have h := foldl_tickStep_snd st tk (tickSlots tk) (st, [])
  simpa [checkSchedule] using h

theorem checkSchedule_lookup (tk : Tick) (st : Store) (k : String) :
    Store.lookup (checkSchedule tk st).1 k =
      if k ∈ (checkSchedule tk st).2 then some tk.nowMs else Store.lookup st k := by
  rw [checkSchedule_snd]
  have h := foldl_tickStep_fst st tk (tickSlots tk) (st, []) k
  simpa [checkSchedule] using h

theorem launch_nodup (tk : Tick) (st : Store) :
    (checkSchedule tk st).2.Nodup := by
  rw [checkSchedule_snd]
  exact List.Nodup.sublist ((List.filter_sublist _).map SlotSpec.key) (tickKeys_nodup tk)

theorem launch_falsy (tk : Tick) (st : Store) (k : String)
    (hk : k ∈ (checkSchedule tk st).2) :
    jsFalsy (Store.lookup st k) = true := by
  rw [checkSchedule_snd] at hk
  rcases List.mem_map.mp hk with ⟨s, hs, rfl⟩
  have hdue := List.of_mem_filter hs
  simp only [isSlotDue, Bool.and_eq_true] at hdue
  exact hdue.2

theorem runTicks_aux (ticks : List Tick) (store : Store) (acc : List String)
    (hT : ∀ tk ∈ ticks, tk.nowMs ≠ 0) (hAcc : acc.Nodup)
    (hInv : ∀ k ∈ acc, jsFalsy (Store.lookup store k) = false) :
    (ticks.foldl (fun a tk =>
      ((checkSchedule tk a.1).1, a.2 ++ (checkSchedule tk a.1).2)) (store, acc)).2.Nodup := by
  induction ticks generalizing store acc with
  | nil => simpa using hAcc
  | cons tk rest ih =>
    simp only [List.foldl_cons]
    apply ih
    · intro t ht
      exact hT t (List.mem_cons_of_mem _ ht)
    · refine List.Nodup.append hAcc (launch_nodup tk store) ?_
      intro k hk1 hk2
      have h1 := hInv k hk1
      have h2 := launch_falsy tk store k hk2
      rw [h1] at h2
      exact Bool.false_ne_true h2
    · intro k hk
      rcases List.mem_append.mp hk with hk1 | hk2
      · have hnot : k ∉ (checkSchedule tk store).2 := by
          intro hc
          have h1 := hInv k hk1
          have h2 := launch_falsy tk store k hc
          rw [h1] at h2
          exact Bool.false_ne_true h2
        rw [checkSchedule_lookup, if_neg hnot]
        exact hInv k hk1
      · rw [checkSchedule_lookup, if_pos hk2]
        have hz : tk.nowMs ≠ 0 := hT tk (List.mem_cons_self _ _)
        simp [jsFalsy, hz]

/-- C1: over any sequence of schedule-check ticks — each tick reading the
store the previous tick persisted (so also across process restarts and
catch-up windows), with arbitrary per-tick dates, clock readings, active
flags and cadences — no slot key is ever launched twice, provided every
tick's `Date.now()` reading is nonzero (a zero launch timestamp would read
falsy in JS and leave the slot eligible). -/
theorem scheduler_at_most_once (ticks : List Tick) (store : Store)
    (hT : ∀ tk ∈ ticks, tk.nowMs ≠ 0) :
    ((runTicks ticks store).2).Nodup := by
  have h := runTicks_aux ticks store [] hT List.nodup_nil (by intro k hk; simp at hk)
  simpa [runTicks] using h

/-- Witness for C1: two consecutive ticks at 9:05 on the same date with
everything active — the second tick relaunches nothing. -/
theorem scheduler_at_most_once_witness :
    (∀ tk ∈ [(⟨"2025-01-01", 9, 5, 111, true, true, 3, 3⟩ : Tick),
             (⟨"2025-01-01", 9, 6, 222, true, true, 3, 3⟩ : Tick)], tk.nowMs ≠ 0) ∧
      ((runTicks [(⟨"2025-01-01", 9, 5, 111, true, true, 3, 3⟩ : Tick),
                  (⟨"2025-01-01", 9, 6, 222, true, true, 3, 3⟩ : Tick)] []).2).Nodup :=
  ⟨by decide, scheduler_at_most_once _ _ (by decide)⟩

/-! ## C6: the next-pending-slot scanners -/

theorem scanSlots_none (store : Store) (now : Nat) (cands : List (Nat × String)) :
    ∀ closest, scanSlots store now closest cands = none →
      closest = none ∧ ∀ p ∈ cands, ¬ pending store now p := by
  induction cands with
  | nil =>
    intro closest h
    exact ⟨h, by simp⟩
  | cons c rest ih =>
    intro closest h
    have h2 : scanSlots store now (scanStep store now closest c) rest = none := h
    obtain ⟨hstep, hrest⟩ := ih (scanStep store now closest c) h2
    by_cases hc : (decide (now < c.1) && beatsClosest closest c.1
        && jsFalsy (Store.lookup store c.2)) = true
    · exfalso
      have hs : scanStep store now closest c = some c := by
        simp only [scanStep]
        rw [if_pos hc]
      rw [hs] at hstep
      exact Option.noConfusion hstep
    · have hkeep : scanStep store now closest c = closest := by
        simp only [scanStep]
        rw [if_neg hc]
      rw [hkeep] at hstep
      refine ⟨hstep, ?_⟩
      intro p hp
      rcases List.mem_cons.mp hp with rfl | hp2
      · intro hpend
        apply hc
        rcases hpend with ⟨h1, h2f⟩
        simp [hstep, beatsClosest, h1, h2f]
      · exact hrest p hp2

theorem scanSlots_some (store : Store) (now : Nat) (cands : List (Nat × String)) :
    ∀ closest q, scanSlots store now closest cands = some q →
      (some q = closest ∨ (q ∈ cands ∧ pending store now q)) ∧
      (∀ p ∈ cands, pending store now p → q.1 ≤ p.1) ∧
      (∀ c, closest = some c → q.1 ≤ c.1) := by
  induction cands with
  | nil =>
    intro closest q h
    have hq : closest = some q := h
    refine ⟨Or.inl hq.symm, by simp, ?_⟩
    intro c hcl
    rw [hcl] at hq
    have : q = c := by
      injection hq.symm
    exact le_of_eq (by rw [this])
  | cons c rest ih =>
    intro closest q h
    have h2 : scanSlots store now (scanStep store now closest c) rest = some q := h
    by_cases hc : (decide (now < c.1) && beatsClosest closest c.1
        && jsFalsy (Store.lookup store c.2)) = true
    · have hs : scanStep store now closest c = some c := by
        simp only [scanStep]
        rw [if_pos hc]
      rw [hs] at h2
      obtain ⟨hmem, hmin, hcl⟩ := ih (some c) q h2
      have hqc : q.1 ≤ c.1 := hcl c rfl
      have hcond := hc
      simp only [Bool.and_eq_true, decide_eq_true_eq] at hcond
      have hpc : pending store now c := ⟨hcond.1.1, hcond.2⟩
      refine ⟨?_, ?_, ?_⟩
      · rcases hmem with h3 | h3
        · have hq : q = c := by injection h3
          exact Or.inr ⟨hq ▸ List.mem_cons_self c rest, hq ▸ hpc⟩
        · exact Or.inr ⟨List.mem_cons_of_mem _ h3.1, h3.2⟩
      · intro p hp hpend
        rcases List.mem_cons.mp hp with rfl | hp2
        · exact hqc
        · exact hmin p hp2 hpend
      · intro cc hcc
        have hbeats := hcond.1.2
        rw [hcc] at hbeats
        simp only [beatsClosest, decide_eq_true_eq] at hbeats
        exact le_trans hqc (le_of_lt hbeats)
    · have hs : scanStep store now closest c = closest := by
        simp only [scanStep]
        rw [if_neg hc]
      rw [hs] at h2
      obtain ⟨hmem, hmin, hcl⟩ := ih closest q h2
      refine ⟨?_, ?_, hcl⟩
      · rcases hmem with h3 | h3
        · exact Or.inl h3
        · exact Or.inr ⟨List.mem_cons_of_mem _ h3.1, h3.2⟩
      · intro p hp hpend
        rcases List.mem_cons.mp hp with rfl | hp2
        · rcases hpend with ⟨h1, h2f⟩
          have hbfalse : beatsClosest closest p.1 = false := by
            cases hx : beatsClosest closest p.1
            · rfl
            · exfalso
              apply hc
              simp [h1, h2f, hx]
          cases hclo : closest with
          | none =>
            rw [hclo] at hbfalse
            simp [beatsClosest] at hbfalse
          | some cc =>
            rw [hclo] at hbfalse
            simp only [beatsClosest, decide_eq_false_iff_not, not_lt] at hbfalse
            exact le_trans (hcl cc hclo) hbfalse
        · exact hmin p hp2 hpend

theorem wf_falsy_iff (store : Store)
    (hWF : ∀ k t, Store.lookup store k = some t → t ≠ 0) (k : String) :
    jsFalsy (Store.lookup store k) = true ↔ Store.lookup store k = none := by
  cases h : Store.lookup store k with
  | none => simp [jsFalsy]
  | some t =>
    have ht := hWF k t h
    simp [jsFalsy, ht]

theorem longDayCands_shape (cad : Nat) (ds : Nat) (dates : Nat → String)
    (d : Nat) (p : Nat × String) (hp : p ∈ longDayCands cad ds dates d) :
    ∃ h, h ∈ ([6, 12, 18] : List Nat) ∧ p.1 = slotTimeMs ds d h 0 := by
  simp only [longDayCands, List.mem_map] at hp
  obtain ⟨h, hh, rfl⟩ := hp
  exact ⟨h, List.mem_of_mem_take hh, rfl⟩

theorem longDay0_lt_day1 (cad : Nat) (ds : Nat) (dates : Nat → String)
    (p r : Nat × String) (hp : p ∈ longDayCands cad ds dates 0)
    (hr : r ∈ longDayCands cad ds dates 1) : p.1 < r.1 := by
  obtain ⟨h1, hm1, he1⟩ := longDayCands_shape cad ds dates 0 p hp
  obtain ⟨h2, hm2, he2⟩ := longDayCands_shape cad ds dates 1 r hr
  rw [he1, he2]
  simp only [slotTimeMs]
  simp only [List.mem_cons, List.mem_singleton, List.not_mem_nil, or_false] at hm1
  omega

/-- C6: for every cadence, current time and well-formed store (every stored
completion timestamp nonzero, as written by `markConsumed` at a real clock
reading), the two next-pending scanners (a) never return a slot whose key is
present in the store, returning only strictly-future slots, and (b) whenever
some candidate slot of the two-day, cadence-limited horizon has a strictly
future timestamp and an absent key, they return a chronologically nearest
such slot. -/
theorem nextPendingSlot_spec (store : Store) (now dayStart : Nat)
    (dates : Nat → String) (cadL cadS : Nat)
    (hWF : ∀ k t, Store.lookup store k = some t → t ≠ 0) :
    (∀ q, findNextLongBatchJob cadL store now dayStart dates = some q →
        Store.lookup store q.2 = none ∧ now < q.1) ∧
    (∀ p ∈ longDayCands cadL dayStart dates 0 ++ longDayCands cadL dayStart dates 1,
        now < p.1 → Store.lookup store p.2 = none →
        ∃ q, findNextLongBatchJob cadL store now dayStart dates = some q ∧
          q ∈ longDayCands cadL dayStart dates 0 ++ longDayCands cadL dayStart dates 1 ∧
          now < q.1 ∧ Store.lookup store q.2 = none ∧
          ∀ r ∈ longDayCands cadL dayStart dates 0 ++ longDayCands cadL dayStart dates 1,
            now < r.1 → Store.lookup store r.2 = none → q.1 ≤ r.1) ∧
    (∀ q, findNextShortJob cadS store now dayStart dates = some q →
        Store.lookup store q.2 = none ∧ now < q.1) ∧
    (∀ p ∈ shortCands cadS dayStart dates,
        now < p.1 → Store.lookup store p.2 = none →
        ∃ q, findNextShortJob cadS store now dayStart dates = some q ∧
          q ∈ shortCands cadS dayStart dates ∧ now < q.1 ∧
          Store.lookup store q.2 = none ∧
          ∀ r ∈ shortCands cadS dayStart dates,
            now < r.1 → Store.lookup store r.2 = none → q.1 ≤ r.1) := by
  have hbr := wf_falsy_iff store hWF
  refine ⟨?_, ?_, ?_, ?_⟩
  · intro q hq
    rcases h0 : scanSlots store now none (longDayCands cadL dayStart dates 0) with _ | j
    · have hq2 : scanSlots store now none (longDayCands cadL dayStart dates 1) = some q := by
        simpa [findNextLongBatchJob, h0] using hq
      obtain ⟨hmem, -, -⟩ := scanSlots_some store now _ none q hq2
      rcases hmem with h3 | h3
      · exact Option.noConfusion h3
      · exact ⟨(hbr q.2).mp h3.2.2, h3.2.1⟩
    · have hjq : j = q := by
        have := hq
        simp only [findNextLongBatchJob, h0] at this
        injection this
      obtain ⟨hmem, -, -⟩ := scanSlots_some store now _ none j h0
      rcases hmem with h3 | h3
      · exact Option.noConfusion h3
      · exact ⟨(hbr q.2).mp (hjq ▸ h3.2.2), hjq ▸ h3.2.1⟩
  · intro p hp hnow habs
    have hpend : pending store now p := ⟨hnow, (hbr p.2).mpr habs⟩
    rcases h0 : scanSlots store now none (longDayCands cadL dayStart dates 0) with _ | j
    · obtain ⟨-, hnone0⟩ := scanSlots_none store now _ none h0
      have hp1 : p ∈ longDayCands cadL dayStart dates 1 := by
        rcases List.mem_append.mp hp with hp0 | hp1
        · exact absurd hpend (hnone0 p hp0)
        · exact hp1
      rcases h1 : scanSlots store now none (longDayCands cadL dayStart dates 1) with _ | q
      · obtain ⟨-, hnone1⟩ := scanSlots_none store now _ none h1
        exact absurd hpend (hnone1 p hp1)
      · obtain ⟨hmem, hmin, -⟩ := scanSlots_some store now _ none q h1
        have hqmem : q ∈ longDayCands cadL dayStart dates 1 ∧ pending store now q := by
          rcases hmem with h3 | h3
          · exact Option.noConfusion h3
          · exact h3
        refine ⟨q, ?_, ?_, ?_, ?_, ?_⟩
        · simp [findNextLongBatchJob, h0, h1]
        · exact List.mem_append.mpr (Or.inr hqmem.1)
        · exact hqmem.2.1
        · exact (hbr q.2).mp hqmem.2.2
        · intro r hr hrnow hrabs
          have hrpend : pending store now r := ⟨hrnow, (hbr r.2).mpr hrabs⟩
          rcases List.mem_append.mp hr with hr0 | hr1
          · exact absurd hrpend (hnone0 r hr0)
          · exact hmin r hr1 hrpend
    · obtain ⟨hmem, hmin, -⟩ := scanSlots_some store now _ none j h0
      have hjmem : j ∈ longDayCands cadL dayStart dates 0 ∧ pending store now j := by
        rcases hmem with h3 | h3
        · exact Option.noConfusion h3
        · exact h3
      refine ⟨j, ?_, ?_, ?_, ?_, ?_⟩
      · simp [findNextLongBatchJob, h0]
      · exact List.mem_append.mpr (Or.inl hjmem.1)
      · exact hjmem.2.1
      · exact (hbr j.2).mp hjmem.2.2
      · intro r hr hrnow hrabs
        have hrpend : pending store now r := ⟨hrnow, (hbr r.2).mpr hrabs⟩
        rcases List.mem_append.mp hr with hr0 | hr1
        · exact hmin r hr0 hrpend
        · exact le_of_lt (longDay0_lt_day1 cadL dayStart dates j r hjmem.1 hr1)
  · intro q hq
    obtain ⟨hmem, -, -⟩ := scanSlots_some store now _ none q hq
    rcases hmem with h3 | h3
    · exact Option.noConfusion h3
    · exact ⟨(hbr q.2).mp h3.2.2, h3.2.1⟩
  · intro p hp hnow habs
    have hpend : pending store now p := ⟨hnow, (hbr p.2).mpr habs⟩
    rcases h1 : findNextShortJob cadS store now dayStart dates with _ | q
    · obtain ⟨-, hnone⟩ := scanSlots_none store now _ none h1
      exact absurd hpend (hnone p hp)
    · obtain ⟨hmem, hmin, -⟩ := scanSlots_some store now _ none q h1
      have hqmem : q ∈ shortCands cadS dayStart dates ∧ pending store now q := by
        rcases hmem with h3 | h3
        · exact Option.noConfusion h3
        · exact h3
      refine ⟨q, rfl, hqmem.1, hqmem.2.1, (hbr q.2).mp hqmem.2.2, ?_⟩
      intro r hr hrnow hrabs
      exact hmin r hr ⟨hrnow, (hbr r.2).mpr hrabs⟩

/-- Witness for C6 at the empty store, current time 0 and day start 0. -/
theorem nextPendingSlot_spec_witness :
    (∀ q, findNextLongBatchJob 3 [] 0 0 (fun d => toString d) = some q →
        Store.lookup [] q.2 = none ∧ 0 < q.1) ∧
    (∀ p ∈ longDayCands 3 0 (fun d => toString d) 0 ++ longDayCands 3 0 (fun d => toString d) 1,
        0 < p.1 → Store.lookup [] p.2 = none →
        ∃ q, findNextLongBatchJob 3 [] 0 0 (fun d => toString d) = some q ∧
          q ∈ longDayCands 3 0 (fun d => toString d) 0 ++ longDayCands 3 0 (fun d => toString d) 1 ∧
          0 < q.1 ∧ Store.lookup [] q.2 = none ∧
          ∀ r ∈ longDayCands 3 0 (fun d => toString d) 0 ++ longDayCands 3 0 (fun d => toString d) 1,
            0 < r.1 → Store.lookup [] r.2 = none → q.1 ≤ r.1) ∧
    (∀ q, findNextShortJob 3 [] 0 0 (fun d => toString d) = some q →
        Store.lookup [] q.2 = none ∧ 0 < q.1) ∧
    (∀ p ∈ shortCands 3 0 (fun d => toString d),
        0 < p.1 → Store.lookup [] p.2 = none →
        ∃ q, findNextShortJob 3 [] 0 0 (fun d => toString d) = some q ∧
          q ∈ shortCands 3 0 (fun d => toString d) ∧ 0 < q.1 ∧
          Store.lookup [] q.2 = none ∧
          ∀ r ∈ shortCands 3 0 (fun d => toString d),
            0 < r.1 → Store.lookup [] r.2 = none → q.1 ≤ r.1) :=
  nextPendingSlot_spec [] 0 0 (fun d => toString d) 3 3
    (fun k t h => by simp [Store.lookup] at h)

/-! ## The pipeline case analyses (C7, C8) -/

theorem kit_shared_spec (svc : Services) (jobLang : String) (jobType : JobType)
    (theme : String) (subthemes : List String) (b : Blob) (nowMs i : Nat) :
    ∀ out, generateAndSaveKit svc jobLang jobType theme subthemes (some b) nowMs ⟨i, []⟩ = out →
      countImageGen out.2.log = 0 ∧
      (∀ e, out.1 = Except.error e →
        (∀ k bl, Event.idbSet k bl ∉ out.2.log) ∧
        (∀ it, Event.historyInsert it ∉ out.2.log)) := by
  cases jobType with
  | long =>
    simp only [generateAndSaveKit, callSvc, reduceIte]
    intro out hout
    repeat' split at hout
    all_goals subst hout
    all_goals refine ⟨rfl, ?_⟩
    all_goals intro e he
    all_goals simp only [finishKit] at he
    all_goals try (exfalso; exact Except.noConfusion he)
    all_goals refine ⟨?_, ?_⟩
    all_goals intros
    all_goals simp_all [finishKit]
  | short =>
    simp only [generateAndSaveKit, callSvc,
      show (JobType.short = JobType.long) = False from eq_false (by decide),
      if_false, reduceIte]
    intro out hout
    repeat' split at hout
    all_goals subst hout
    all_goals refine ⟨rfl, ?_⟩
    all_goals intro e he
    all_goals simp only [finishKit] at he
    all_goals try (exfalso; exact Except.noConfusion he)
    all_goals refine ⟨?_, ?_⟩
    all_goals intros
    all_goals simp_all [finishKit]

theorem kit_none_spec (svc : Services) (jobLang : String) (jobType : JobType)
    (theme : String) (subthemes : List String) (nowMs i : Nat) :
    ∀ out, generateAndSaveKit svc jobLang jobType theme subthemes none nowMs ⟨i, []⟩ = out →
      (countImageGen out.2.log = 0 ∨ countImageGen out.2.log = 1) ∧
      (∀ idx p a, Event.callImageGen idx p a ∈ out.2.log →
        a = (if jobType = JobType.short then "9:16" else "16:9")) ∧
      (∀ it, out.1 = Except.ok it → countImageGen out.2.log = 1) ∧
      (∀ e, out.1 = Except.error e →
        (∀ k bl, Event.idbSet k bl ∉ out.2.log) ∧
        (∀ it, Event.historyInsert it ∉ out.2.log)) := by
  cases jobType with
  | long =>
    simp only [generateAndSaveKit, callSvc, reduceIte,
      show (JobType.long = JobType.short) = False from eq_false (by decide), if_false]
    intro out hout
    repeat' split at hout
    all_goals subst hout
    all_goals refine ⟨?_, ?_, ?_, ?_⟩
    all_goals try (first | exact Or.inl rfl | exact Or.inr rfl)
    all_goals try (intro e he; exfalso; simp [finishKit] at he; done)
    all_goals try (intro idx p a h; simp [finishKit] at h; try exact h.2.2; done)
    all_goals try (intro e he; refine ⟨?_, ?_⟩ <;> (intros; simp_all [finishKit]); done)
    all_goals intro it hok
    all_goals rfl
  | short =>
    simp only [generateAndSaveKit, callSvc, reduceIte,
      show (JobType.short = JobType.long) = False from eq_false (by decide), if_false]
    intro out hout
    repeat' split at hout
    all_goals subst hout
    all_goals refine ⟨?_, ?_, ?_, ?_⟩
    all_goals try (first | exact Or.inl rfl | exact Or.inr rfl)
    all_goals try (intro e he; exfalso; simp [finishKit] at he; done)
    all_goals try (intro idx p a h; simp [finishKit] at h; try exact h.2.2; done)
    all_goals try (intro e he; refine ⟨?_, ?_⟩ <;> (intros; simp_all [finishKit]); done)
    all_goals intro it hok
    all_goals rfl

set_option maxHeartbeats 1600000 in

/-- C7 counterexample: a run without a sharedImage whose first text stage
rejects never reaches the visual stage, so the image-generation call is
invoked zero times — not exactly once as the claim states. -/
theorem imageGen_policy_cex :
    countImageGen ((generateAndSaveKit failingServices "pt" JobType.long "t" []
      none 1 ⟨0, []⟩).2.log) ≠ 1 := by decide

/-- C7 (amended): a pipeline run given a `sharedImage` never invokes the
image-generation call; a run without one invokes it at most once — any such
call carries aspect ratio `9:16` for a short job and `16:9` for a long job —
and exactly once whenever the run succeeds (a run that fails before the
visual stage invokes it zero times). -/
theorem imageGen_policy (svc : Services) (jobLang : String) (jobType : JobType)
    (theme : String) (subthemes : List String) (b : Blob) (nowMs i : Nat) :
    countImageGen ((generateAndSaveKit svc jobLang jobType theme subthemes
        (some b) nowMs ⟨i, []⟩).2.log) = 0 ∧
    (countImageGen ((generateAndSaveKit svc jobLang jobType theme subthemes
        none nowMs ⟨i, []⟩).2.log) = 0 ∨
      countImageGen ((generateAndSaveKit svc jobLang jobType theme subthemes
        none nowMs ⟨i, []⟩).2.log) = 1) ∧
    (∀ idx p a, Event.callImageGen idx p a ∈
        (generateAndSaveKit svc jobLang jobType theme subthemes none nowMs ⟨i, []⟩).2.log →
      a = (if jobType = JobType.short then "9:16" else "16:9")) ∧
    (∀ it, (generateAndSaveKit svc jobLang jobType theme subthemes none nowMs ⟨i, []⟩).1
        = Except.ok it →
      countImageGen ((generateAndSaveKit svc jobLang jobType theme subthemes
        none nowMs ⟨i, []⟩).2.log) = 1) := by
  obtain ⟨h1, -⟩ := kit_shared_spec svc jobLang jobType theme subthemes b nowMs i _ rfl
  obtain ⟨h2, h3, h4, -⟩ := kit_none_spec svc jobLang jobType theme subthemes nowMs i _ rfl
  exact ⟨h1, h2, h3, h4⟩

/-- Witness for C7 (amended) at the always-failing oracle and a concrete
shared blob. -/
theorem imageGen_policy_witness :
    countImageGen ((generateAndSaveKit failingServices "pt" JobType.long "t" []
        (some (Blob.png "x")) 1 ⟨0, []⟩).2.log) = 0 ∧
    (countImageGen ((generateAndSaveKit failingServices "pt" JobType.long "t" []
        none 1 ⟨0, []⟩).2.log) = 0 ∨
      countImageGen ((generateAndSaveKit failingServices "pt" JobType.long "t" []
        none 1 ⟨0, []⟩).2.log) = 1) ∧
    (∀ idx p a, Event.callImageGen idx p a ∈
        (generateAndSaveKit failingServices "pt" JobType.long "t" [] none 1 ⟨0, []⟩).2.log →
      a = (if JobType.long = JobType.short then "9:16" else "16:9")) ∧
    (∀ it, (generateAndSaveKit failingServices "pt" JobType.long "t" [] none 1 ⟨0, []⟩).1
        = Except.ok it →
      countImageGen ((generateAndSaveKit failingServices "pt" JobType.long "t" []
        none 1 ⟨0, []⟩).2.log) = 1) :=
  imageGen_policy failingServices "pt" JobType.long "t" [] (Blob.png "x") 1 0

/-- C8: a pipeline run that fails (settles with an error) records no partial
artifact: no binary blob is persisted under a history key and no history
item is inserted; and the launching jobs wrap their bodies in try/catch, so
they always settle successfully — a failed run never propagates to block
other tracks or future slot checks. -/
theorem failedRun_no_artifact (svc : Services) (jobLang : String)
    (jobType : JobType) (theme : String) (subthemes : List String)
    (shared : Option Blob) (nowMs i : Nat) (e : ApiError)
    (he : (generateAndSaveKit svc jobLang jobType theme subthemes shared nowMs ⟨i, []⟩).1
        = Except.error e) :
    ((∀ k bl, Event.idbSet k bl ∉
        (generateAndSaveKit svc jobLang jobType theme subthemes shared nowMs ⟨i, []⟩).2.log) ∧
      (∀ it, Event.historyInsert it ∉
        (generateAndSaveKit svc jobLang jobType theme subthemes shared nowMs ⟨i, []⟩).2.log)) ∧
    (∀ (svc2 : Services) (n j : Nat),
      (runAutomatedLongVideoBatch svc2 n ⟨j, []⟩).1 = Except.ok ()) ∧
    (∀ (svc2 : Services) (lang : String) (n j : Nat),
      (runAutomatedShortVideoJob svc2 lang n ⟨j, []⟩).1 = Except.ok ()) := by
  refine ⟨?_, fun svc2 n j => rfl, fun svc2 lang n j => rfl⟩
  cases shared with
  | some b =>
    exact (kit_shared_spec svc jobLang jobType theme subthemes b nowMs i _ rfl).2 e he
  | none =>
    exact (kit_none_spec svc jobLang jobType theme subthemes nowMs i _ rfl).2.2.2 e he

/-- Witness for C8 at the always-failing oracle. -/
theorem failedRun_no_artifact_witness :
    (generateAndSaveKit failingServices "pt" JobType.short "t" [] none 1 ⟨0, []⟩).1
        = Except.error jsError ∧
    (((∀ k bl, Event.idbSet k bl ∉
        (generateAndSaveKit failingServices "pt" JobType.short "t" [] none 1 ⟨0, []⟩).2.log) ∧
      (∀ it, Event.historyInsert it ∉
        (generateAndSaveKit failingServices "pt" JobType.short "t" [] none 1 ⟨0, []⟩).2.log)) ∧
    (∀ (svc2 : Services) (n j : Nat),
      (runAutomatedLongVideoBatch svc2 n ⟨j, []⟩).1 = Except.ok ()) ∧
    (∀ (svc2 : Services) (lang : String) (n j : Nat),
      (runAutomatedShortVideoJob svc2 lang n ⟨j, []⟩).1 = Except.ok ())) :=
  ⟨rfl, failedRun_no_artifact failingServices "pt" JobType.short "t" [] none 1 0 jsError rfl⟩

/-! ## C10: the PT guided-prayer text of a long batch -/

/-- C10 counterexample: with an oracle answering every guided-prayer request
with the same text "P", the batch succeeds, the shared image's visual prompt
is derived from "P" (the media-prompt call receives "P"), and the PT
artifact stores exactly "P" — so, as universally stated over the remote
calls' behaviours, the claim that the visual-source text is never stored
fails: it needs the two independent calls to return different texts. -/
theorem ptPrayer_generated_twice_cex :
    Event.callMediaPrompt 2 "P" ∈ (runAutomatedLongVideoBatch svcSame 1 ⟨0, []⟩).2.log ∧
    Event.historyInsert
      { id := "1-pt-long", timestamp := 1, type := JobType.long, language := "pt",
        prompt := "hope", subthemes := [], prayer := "P", socialPost := none,
        longPost := some ⟨"T", "D"⟩, audioBlobKey := "history_audio_1-pt-long",
        imageBlobKey := "history_image_1-pt-long", isDownloaded := false }
      ∈ (runAutomatedLongVideoBatch svcSame 1 ⟨0, []⟩).2.log := by decide

set_option maxHeartbeats 1600000 in
theorem ptPrayer_generated_twice (svc : Services) (nowMs i : Nat)
    (th t1 vp img t2 t3 t4 a1 a2 a3 : String) (subs : List String) (p1 p2 p3 : Post)
    (h0 : svc.getTrendingTopic i "pt" JobType.long = Except.ok ⟨th, subs⟩)
    (h1 : svc.generateGuidedPrayer (i + 1) th "pt" = Except.ok t1)
    (h2 : svc.createMediaPromptFromPrayer (i + 2) t1 = Except.ok vp)
    (h3 : svc.generateImageFromPrayer (i + 3) vp "16:9" = Except.ok img)
    (himg : img ≠ "")
    (h4 : svc.generateGuidedPrayer (i + 4) th "pt" = Except.ok t2)
    (ht2 : t2 ≠ "")
    (h5 : svc.generateYouTubeLongPost (i + 5) th subs "pt" = Except.ok p1)
    (h6 : svc.generateSpeech (i + 6) t2 true = Except.ok a1)
    (ha1 : a1 ≠ "")
    (h7 : svc.generateGuidedPrayer (i + 7) th "en" = Except.ok t3)
    (ht3 : t3 ≠ "")
    (h8 : svc.generateYouTubeLongPost (i + 8) th subs "en" = Except.ok p2)
    (h9 : svc.generateSpeech (i + 9) t3 true = Except.ok a2)
    (ha2 : a2 ≠ "")
    (h10 : svc.generateGuidedPrayer (i + 10) th "es" = Except.ok t4)
    (ht4 : t4 ≠ "")
    (h11 : svc.generateYouTubeLongPost (i + 11) th subs "es" = Except.ok p3)
    (h12 : svc.generateSpeech (i + 12) t4 true = Except.ok a3)
    (ha3 : a3 ≠ "")
    (hne1 : t1 ≠ t2) (hne2 : t1 ≠ t3) (hne3 : t1 ≠ t4) :
    countPtGuided ((runAutomatedLongVideoBatch svc nowMs ⟨i, []⟩).2.log) = 2 ∧
    (∃ j, Event.callMediaPrompt j t1 ∈ (runAutomatedLongVideoBatch svc nowMs ⟨i, []⟩).2.log) ∧
    (∃ it, Event.historyInsert it ∈ (runAutomatedLongVideoBatch svc nowMs ⟨i, []⟩).2.log ∧
      it.language = "pt" ∧ it.prayer = t2) ∧
    (∀ it, Event.historyInsert it ∈ (runAutomatedLongVideoBatch svc nowMs ⟨i, []⟩).2.log →
      it.prayer ≠ t1) := by
  have e2 : svc.createMediaPromptFromPrayer (i + 1 + 1) t1 = Except.ok vp := h2
  have e3 : svc.generateImageFromPrayer (i + 1 + 1 + 1) vp "16:9" = Except.ok img := h3
  have e4 : svc.generateGuidedPrayer (i + 1 + 1 + 1 + 1) th "pt" = Except.ok t2 := h4
  have e5 : svc.generateYouTubeLongPost (i + 1 + 1 + 1 + 1 + 1) th subs "pt" = Except.ok p1 := h5
  have e6 : svc.generateSpeech (i + 1 + 1 + 1 + 1 + 1 + 1) t2 true = Except.ok a1 := h6
  have e7 : svc.generateGuidedPrayer (i + 1 + 1 + 1 + 1 + 1 + 1 + 1) th "en" = Except.ok t3 := h7
  have e8 : svc.generateYouTubeLongPost (i + 1 + 1 + 1 + 1 + 1 + 1 + 1 + 1) th subs "en" = Except.ok p2 := h8
  have e9 : svc.generateSpeech (i + 1 + 1 + 1 + 1 + 1 + 1 + 1 + 1 + 1) t3 true = Except.ok a2 := h9
  have e10 : svc.generateGuidedPrayer (i + 1 + 1 + 1 + 1 + 1 + 1 + 1 + 1 + 1 + 1) th "es" = Except.ok t4 := h10
  have e11 : svc.generateYouTubeLongPost (i + 1 + 1 + 1 + 1 + 1 + 1 + 1 + 1 + 1 + 1 + 1) th subs "es" = Except.ok p3 := h11
  have e12 : svc.generateSpeech (i + 1 + 1 + 1 + 1 + 1 + 1 + 1 + 1 + 1 + 1 + 1 + 1) t4 true = Except.ok a3 := h12
  simp only [runAutomatedLongVideoBatch, longBatchBody, generateAndSaveKit, callSvc,
    reduceIte, finishKit, h0, h1, e2, e3, e4, e5, e6, e7, e8, e9, e10, e11, e12,
    himg, ht2, ht3, ht4, ha1, ha2, ha3,
    show (JobType.long = JobType.short) = False from eq_false (by decide), if_false]
  refine ⟨rfl, ⟨i + 1 + 1, by simp⟩, ?_, ?_⟩
  · refine ⟨{ id := toString nowMs ++ "-" ++ "pt" ++ "-" ++ JobType.long.str,
              timestamp := nowMs, type := JobType.long, language := "pt",
              prompt := th, subthemes := subs, prayer := t2,
              socialPost := none, longPost := some p1,
              audioBlobKey := "history_audio_" ++ (toString nowMs ++ "-" ++ "pt" ++ "-" ++ JobType.long.str),
              imageBlobKey := "history_image_" ++ (toString nowMs ++ "-" ++ "pt" ++ "-" ++ JobType.long.str),
              isDownloaded := false }, by simp, rfl, rfl⟩
  · intro it hmem
    simp at hmem
    rcases hmem with rfl | rfl | rfl
    · exact fun hc => hne1 hc.symm
    · exact fun hc => hne2 hc.symm
    · exact fun hc => hne3 hc.symm

/-- Witness for C10 (amended) at an oracle whose guided-prayer responses
carry the invocation index, so the two independent PT calls differ. -/
theorem ptPrayer_generated_twice_witness :
    countPtGuided ((runAutomatedLongVideoBatch svcDistinct 7 ⟨0, []⟩).2.log) = 2 ∧
    (∃ j, Event.callMediaPrompt j "P1" ∈
      (runAutomatedLongVideoBatch svcDistinct 7 ⟨0, []⟩).2.log) ∧
    (∃ it, Event.historyInsert it ∈
        (runAutomatedLongVideoBatch svcDistinct 7 ⟨0, []⟩).2.log ∧
      it.language = "pt" ∧ it.prayer = "P4") ∧
    (∀ it, Event.historyInsert it ∈
        (runAutomatedLongVideoBatch svcDistinct 7 ⟨0, []⟩).2.log →
      it.prayer ≠ "P1") :=
  ptPrayer_generated_twice svcDistinct 7 0 "hope" "P1" "MP" "IMG" "P4" "P7" "P10"
    "A" "A" "A" [] ⟨"T", "D"⟩ ⟨"T", "D"⟩ ⟨"T", "D"⟩
    rfl rfl rfl rfl (by decide) rfl (by decide) rfl rfl (by decide)
    rfl (by decide) rfl rfl (by decide) rfl (by decide) rfl rfl (by decide)
    (by decide) (by decide) (by decide)
